import Mathlib

/-!
# Verification of the validata expression engine

Shallow embedding of the validata rule-evaluation core (the `validata`
Python package): the comparator families from the legacy flat module
`validata/comparators.py` and the partially refactored package
`validata/comparators/`, the symbol registries from
`validata/comparators/base.py` and `validata/operators/base.py`, and the
recursive boolean-expression parser from `validata/parser.py`.

Datasets are modelled as lists of named, typed columns whose cells are
rationals, strings or missing (pandas `NaN`).  Fallible operations return
`Except VError`.  The tokenizer and the leaf evaluator are not present in
the source tree (only `parser.py`, which imports them, is); the tokenizer
is modelled from the specification and leaf evaluation is abstracted as a
function parameter of the parser.
-/

namespace Validata

/-- An exact rational: numerator and positive denominator, kept reduced
by the smart constructor `Q.norm`.  Python floats are idealized as exact
rationals; a hand-rolled fraction type (rather than Mathlib's `ℚ`) keeps
every arithmetic operation kernel-computable, so concrete runs of the
embedded code evaluate by `decide`. -/
structure Q where
  num : Int
  den : Int
deriving DecidableEq, Repr

/-- Reduce a fraction: divide out the gcd and make the denominator
positive (`⟨0, 1⟩` for the degenerate zero denominator). -/
def Q.norm (n d : Int) : Q :=
  let g : Int := (Int.gcd n d : Int)
  if g = 0 then ⟨0, 1⟩
  else
    let n' := n / g
    let d' := d / g
    if d' < 0 then ⟨-n', -d'⟩ else ⟨n', d'⟩

def Q.ofInt (n : Int) : Q := ⟨n, 1⟩

def Q.ofNat (n : Nat) : Q := ⟨(n : Int), 1⟩

instance : OfNat Q n := ⟨Q.ofNat n⟩

def Q.add (a b : Q) : Q := Q.norm (a.num * b.den + b.num * a.den) (a.den * b.den)

def Q.sub (a b : Q) : Q := Q.norm (a.num * b.den - b.num * a.den) (a.den * b.den)

def Q.mul (a b : Q) : Q := Q.norm (a.num * b.num) (a.den * b.den)

def Q.div (a b : Q) : Q := Q.norm (a.num * b.den) (a.den * b.num)

def Q.neg (a : Q) : Q := ⟨-a.num, a.den⟩

def Q.absQ (a : Q) : Q := if a.num < 0 then ⟨-a.num, a.den⟩ else ⟨a.num, a.den⟩

/-- Value order on fractions with positive denominators
(cross-multiplication). -/
def Q.le (a b : Q) : Bool := decide (a.num * b.den ≤ b.num * a.den)

def Q.lt (a b : Q) : Bool := decide (a.num * b.den < b.num * a.den)

/-- Value equality (cross-multiplication); coincides with structural
equality on reduced fractions. -/
def Q.beq (a b : Q) : Bool := decide (a.num * b.den = b.num * a.den)

/-- Floor of a fraction (rounds toward `-∞`, like Python `//`). -/
def Q.floorQ (a : Q) : Int := Int.fdiv a.num a.den

/-- A cell value: a numeric value (pandas numeric dtypes are collapsed to
one rational-valued kind), a string, or a missing value (`NaN`). -/
inductive Val where
  | num (q : Q)
  | str (s : String)
  | missing
deriving DecidableEq, Repr

/-- Column dtype: `number` covers the pandas numeric dtypes, `object`
covers text columns (pandas `select_dtypes("number")` vs `"object"`). -/
inductive Dtype where
  | number
  | object
deriving DecidableEq, Repr

/-- A named, typed dataframe column. -/
structure Column where
  name : String
  dtype : Dtype
  values : List Val
deriving DecidableEq, Repr

/-- A dataframe: an ordered list of named columns sharing a row index
(modelled positionally). -/
abbrev DataFrame := List Column

/-- A comparison target: a scalar or a per-row series.  The code wraps a
scalar into a row-aligned series (`pd.Series(target, index=df.index)`);
a caller-supplied series is taken to be row-aligned, so a length mismatch
is modelled as an error. -/
inductive Target where
  | scalar (v : Val)
  | series (vs : List Val)
deriving DecidableEq, Repr

/-- Errors raised by the engine.  `typeMismatch` carries the required
dtype and the offending column names (`_check_dtypes`); `unknownSymbol`
carries the literal message of the registry `TypeError`; `valueError` and
`runtimeError` carry the literal Python messages. -/
inductive VError where
  | typeMismatch (dtype : String) (columns : List String)
  | unknownSymbol (msg : String)
  | valueError (msg : String)
  | runtimeError (msg : String)
deriving DecidableEq, Repr

/-- A boolean matrix, stored as a list of columns (each a list of
row values), mirroring the per-column construction in the source. -/
abbrev BoolMatrix := List (List Bool)

instance {ε α : Type _} [DecidableEq ε] [DecidableEq α] : DecidableEq (Except ε α)
  | .error e, .error f =>
      if h : e = f then .isTrue (by rw [h])
      else .isFalse (by intro hc; cases hc; exact h rfl)
  | .error _, .ok _ => .isFalse (by intro hc; cases hc)
  | .ok _, .error _ => .isFalse (by intro hc; cases hc)
  | .ok a, .ok b =>
      if h : a = b then .isTrue (by rw [h])
      else .isFalse (by intro hc; cases hc; exact h rfl)

/-- Monadic map over a list (the effectful column loops of the
source; first error wins, as in Python). -/
def mapE (f : α → Except VError β) : List α → Except VError (List β)
  | [] => .ok []
  | x :: xs => do
    let y ← f x
    let ys ← mapE f xs
    pure (y :: ys)

theorem mapE_ok_length (f : α → Except VError β) (l : List α) (m : List β) :
    mapE f l = .ok m → m.length = l.length := by
  induction l generalizing m with
  | nil =>
    intro h
    simp only [mapE] at h
    cases h
    rfl
  | cons x xs ih =>
    intro h
    simp only [mapE, bind, Except.bind] at h
    cases hx : f x with
    | error e => rw [hx] at h; cases h
    | ok y =>
      rw [hx] at h
      cases hxs : mapE f xs with
      | error e => rw [hxs] at h; cases h
      | ok ys =>
        rw [hxs] at h
        simp only [pure, Except.pure, Except.ok.injEq] at h
        subst h
        simp [ih ys hxs]

theorem mapE_ok_forall (f : α → Except VError β) (l : List α) (m : List β)
    (p : α → β → Prop) (hf : ∀ a b, f a = .ok b → p a b) :
    mapE f l = .ok m → ∀ i, i < l.length →
      ∃ b, m.get? i = some b ∧ ∀ a, l.get? i = some a → p a b := by
  induction l generalizing m with
  | nil => intro _ i hi; simp at hi
  | cons x xs ih =>
    intro h i hi
    simp only [mapE, bind, Except.bind] at h
    cases hx : f x with
    | error e => rw [hx] at h; cases h
    | ok y =>
      rw [hx] at h
      cases hxs : mapE f xs with
      | error e => rw [hxs] at h; cases h
      | ok ys =>
        rw [hxs] at h
        simp only [pure, Except.pure, Except.ok.injEq] at h
        subst h
        cases i with
        | zero =>
          refine ⟨y, rfl, ?_⟩
          intro a ha
          cases ha
          exact hf x y hx
        | succ j =>
          simp only [List.length_cons, Nat.succ_lt_succ_iff] at hi
          exact ih ys hxs j hi

/-- Broadcast a target to one column's rows: a scalar is replicated over
the row index (`pd.Series(target, index=df.index)`); a series must
already be row-aligned. -/
def broadcast (t : Target) (n : Nat) : Except VError (List Val) :=
  match t with
  | .scalar v => .ok (List.replicate n v)
  | .series vs =>
      if vs.length = n then .ok vs
      else .error (.runtimeError "target series is not aligned with the row index")

theorem broadcast_ok_length (t : Target) (n : Nat) (vs : List Val) :
    broadcast t n = .ok vs → vs.length = n := by
  cases t with
  | scalar v =>
    intro h
    simp only [broadcast, Except.ok.injEq] at h
    subst h
    simp
  | series ws =>
    intro h
    simp only [broadcast] at h
    by_cases hl : ws.length = n
    · rw [if_pos hl] at h
      cases h
      exact hl
    · rw [if_neg hl] at h
      cases h

/-- Python rendering of a dtype name as it appears in the
`_check_dtypes` message. -/
def dtypeName : Dtype → String
  | .number => "number"
  | .object => "object"

/-- Names of the columns whose dtype differs from the required one
(`set(df.columns) - set(df.select_dtypes(dtype))`, modelled in column
order). -/
def invalidColumns (df : DataFrame) (dtype : Dtype) : List String :=
  (df.filter (fun c => c.dtype ≠ dtype)).map Column.name

/-- Embedding of `Comparator._check_dtypes`: raise a `TypeError` listing the offending
columns when any selected column has the wrong dtype. -/
def checkDtypes (df : DataFrame) (dtype : Dtype) : Except VError Unit :=
  if invalidColumns df dtype = [] then .ok ()
  else .error (.typeMismatch (dtypeName dtype) (invalidColumns df dtype))

theorem checkDtypes_ok (df : DataFrame) (dtype : Dtype)
    (h : invalidColumns df dtype = []) : checkDtypes df dtype = .ok () := by
  simp [checkDtypes, h]

theorem checkDtypes_error (df : DataFrame) (dtype : Dtype)
    (h : invalidColumns df dtype ≠ []) :
    checkDtypes df dtype = .error (.typeMismatch (dtypeName dtype) (invalidColumns df dtype)) := by
  simp [checkDtypes, h]

/-- Numeric value of a list of decimal digit characters. -/
def digitsVal (cs : List Char) : Nat :=
  cs.foldl (fun acc c => acc * 10 + (c.toNat - 48)) 0

/-- Python `str.strip()` on characters: drop surrounding whitespace. -/
def trimChars (cs : List Char) : List Char :=
  ((cs.dropWhile Char.isWhitespace).reverse.dropWhile Char.isWhitespace).reverse

/-- Python `str.split(sep)` for a one-character separator: split on every
occurrence, keeping empty pieces. -/
def splitOnChar (sep : Char) : List Char → List (List Char)
  | [] => [[]]
  | c :: rest =>
      if c = sep then [] :: splitOnChar sep rest
      else
        match splitOnChar sep rest with
        | [] => [[c]]
        | p :: ps => (c :: p) :: ps

/-- Python `float(s)`: optional surrounding whitespace, optional sign,
decimal digits with an optional fractional part (`"1"`, `"1.5"`, `".5"`,
`"2."`).  Exponents and the `inf`/`nan` literals are not needed by any
target string of the engine and are not modelled. -/
def parseDecimal (s : String) : Option Q :=
  let cs := (s.toList.dropWhile Char.isWhitespace).reverse.dropWhile Char.isWhitespace
  let cs := cs.reverse
  let signAndRest : Q × List Char :=
    match cs with
    | '-' :: rest => (Q.ofInt (-1), rest)
    | '+' :: rest => (Q.ofInt 1, rest)
    | _ => (Q.ofInt 1, cs)
  let sign := signAndRest.1
  let body := signAndRest.2
  let intPart := body.takeWhile Char.isDigit
  let rest := body.dropWhile Char.isDigit
  match rest with
  | [] =>
      if intPart.isEmpty then none
      else some (sign.mul (Q.ofNat (digitsVal intPart)))
  | '.' :: frac =>
      if frac.all Char.isDigit && !(intPart.isEmpty && frac.isEmpty) then
        some (sign.mul ((Q.ofNat (digitsVal intPart)).add
          ((Q.ofNat (digitsVal frac)).div (Q.ofNat (10 ^ frac.length)))))
      else none
  | _ => none

/-- Elementwise `astype`: coercion of a value to a column dtype.  Casting
to `object` keeps the value; casting to a numeric dtype parses strings as
floats (raising `ValueError` on failure, as Python does) and keeps `NaN`
missing. -/
def coerceVal (v : Val) (dtype : Dtype) : Except VError Val :=
  match dtype with
  | .object => .ok v
  | .number =>
      match v with
      | .num q => .ok (.num q)
      | .missing => .ok .missing
      | .str s =>
          match parseDecimal s with
          | some q => .ok (.num q)
          | none => .error (.valueError ("could not convert string to float: '" ++ s ++ "'"))

/-- Elementwise `astype(float)`: `none` is `NaN`. -/
def valToFloat (v : Val) : Except VError (Option Q) :=
  match v with
  | .num q => .ok (some q)
  | .missing => .ok none
  | .str s =>
      match parseDecimal s with
      | some q => .ok (some q)
      | none => .error (.valueError ("could not convert string to float: '" ++ s ++ "'"))

/-- pandas elementwise `==`: `NaN` compares unequal to everything
(including itself), values of different kinds compare unequal. -/
def eqVal (a b : Val) : Bool :=
  match a, b with
  | .num x, .num y => x.beq y
  | .str x, .str y => decide (x = y)
  | _, _ => false

/-- True exactly on the missing value (`isna`). -/
def Val.isMissing : Val → Bool
  | .missing => true
  | _ => false

/-- The comparison methods accepted by `CompareMixin._compare`
(`valid = "eq", "ne", "lt", "lte", "gt", "gte"`). -/
inductive CmpOp where
  | eq | ne | lt | lte | gt | gte
deriving DecidableEq, Repr

/-- Lexicographic order on character lists (Python string `<`). -/
def lexLt : List Char → List Char → Bool
  | [], [] => false
  | [], _ :: _ => true
  | _ :: _, [] => false
  | a :: as, b :: bs =>
      if a < b then true
      else if b < a then false
      else lexLt as bs

/-- Ordering comparison on rationals, by method name. -/
def ordCmpQ (op : CmpOp) (x y : Q) : Bool :=
  match op with
  | .eq => x.beq y
  | .ne => !x.beq y
  | .lt => x.lt y
  | .lte => x.le y
  | .gt => y.lt x
  | .gte => y.le x

/-- Ordering comparison on strings (Python lexicographic order). -/
def ordCmpS (op : CmpOp) (x y : String) : Bool :=
  match op with
  | .eq => decide (x = y)
  | .ne => decide (x ≠ y)
  | .lt => lexLt x.toList y.toList
  | .lte => !lexLt y.toList x.toList
  | .gt => lexLt y.toList x.toList
  | .gte => !lexLt x.toList y.toList

/-- One cell compared with one target value by a `pd.Series` comparison
method: `eq`/`ne` never raise (`NaN` is unequal to everything); the
ordering methods return `False` when either side is `NaN`, compare
numbers numerically and strings lexicographically, and raise on a
cross-kind ordering (as Python `<`/`>` do on `str` vs `float`). -/
def valCmpE (op : CmpOp) (a b : Val) : Except VError Bool :=
  match op with
  | .eq => .ok (eqVal a b)
  | .ne => .ok (!eqVal a b)
  | _ =>
      match a, b with
      | .missing, _ => .ok false
      | _, .missing => .ok false
      | .num x, .num y => .ok (ordCmpQ op x y)
      | .str x, .str y => .ok (ordCmpS op x y)
      | _, _ => .error (.runtimeError "ordering comparison between str and numeric values")

/-- One numeric cell compared with one float target (`df.gt(target, axis=0)`
and friends, after the numeric dtype guard): `NaN` on either side gives
`False`. -/
def cellCmpFloat (op : CmpOp) (v : Val) (t : Option Q) : Bool :=
  match v, t with
  | .num a, some b => ordCmpQ op a b
  | _, _ => false

/-- The numeric (non-missing) values of a column, in row order
(pandas statistics skip `NaN`). -/
def presentRats (vs : List Val) : List Q :=
  vs.filterMap (fun v => match v with | .num q => some q | _ => none)

/-- Insertion of a value into a sorted list of rationals. -/
def insertSorted (x : Q) : List Q → List Q
  | [] => [x]
  | y :: ys => if x.le y then x :: y :: ys else y :: insertSorted x ys

/-- Ascending sort of a list of rationals. -/
def sortRats (l : List Q) : List Q := l.foldr insertSorted []

/-- Embedding of `Series.quantile(q)` with the default linear interpolation: with the
non-missing values sorted ascending as `v_0 … v_(n-1)`, the quantile sits
at position `h = (n-1)·q` and interpolates between `v_⌊h⌋` and the next
value. -/
def quantile (l : List Q) (q : Q) : Q :=
  let s := sortRats l
  if s.length = 0 then 0
  else
    let n := s.length
    let h : Q := ((Q.ofNat n).sub 1).mul q
    let f : Int := h.floorQ
    let fi : Nat := f.toNat
    let lo := s.getD fi 0
    let hi := s.getD (min (fi + 1) (n - 1)) 0
    lo.add ((h.sub (Q.ofInt f)).mul (hi.sub lo))

/-- Embedding of `Series.median()`: middle of the sorted non-missing values, or the
mean of the two middle values for an even count. -/
def medianQ (l : List Q) : Q :=
  let s := sortRats l
  let n := s.length
  if n = 0 then 0
  else if n % 2 = 1 then s.getD (n / 2) 0
  else ((s.getD (n / 2 - 1) 0).add (s.getD (n / 2) 0)).div 2

/-- Embedding of `Series.mean()` over the non-missing values. -/
def meanQ (l : List Q) : Q := (l.foldr Q.add 0).div (Q.ofNat l.length)

/-- Embedding of `Series.var()` (pandas default `ddof=1`): sample variance, the square
of `Series.std()`. -/
def sampleVar (l : List Q) : Q :=
  let μ := meanQ l
  ((l.map (fun x => (x.sub μ).mul (x.sub μ))).foldr Q.add 0).div ((Q.ofNat l.length).sub 1)

/-- Average (pandas `method="average"`) rank of `x` among the values `l`:
the count of values strictly before it (ascending or descending) plus the
midpoint of its tie group. -/
def avgRank (ascending : Bool) (l : List Q) (x : Q) : Q :=
  let before : Nat :=
    if ascending then (l.filter (fun y => y.lt x)).length
    else (l.filter (fun y => x.lt y)).length
  let ties : Nat := (l.filter (fun y => y.beq x)).length
  (Q.ofNat before).add (((Q.ofNat ties).add 1).div 2)

/-- Embedding of `df.rank(ascending=…, pct=…)` for one column: the average rank of
each non-missing value (divided by the non-missing count when `pct`),
`NaN` (`none`) for missing cells (`na_option="keep"`). -/
def rankColumn (ascending pct : Bool) (vs : List Val) : List (Option Q) :=
  let l := presentRats vs
  vs.map (fun v =>
    match v with
    | .num x =>
        some (if pct then (avgRank ascending l x).div (Q.ofNat l.length)
              else avgRank ascending l x)
    | _ => none)

/-- The leading-literal strip used by the anchored regex matches:
`some rest` when `lit` is a prefix of `cs`. -/
def stripLit : List Char → List Char → Option (List Char)
  | [], cs => some cs
  | _ :: _, [] => none
  | l :: ls, c :: cs => if l = c then stripLit ls cs else none

/-- Embedding of the match `re.match(r"(?P<from>top|bottom)\s+(?P<rank>[0-9]+)\s*(?P<pct>%)?", target)`
of `RankComparator.__call__`: returns `(ascending, rank, pct)` where
`ascending = (from == "bottom")`.  Like `re.match`, it anchors at the
start and ignores any trailing text. -/
def rankParseTarget (target : String) : Option (Bool × ℕ × Bool) :=
  let cs := target.toList
  let branch : Option (Bool × List Char) :=
    match stripLit "top".toList cs with
    | some rest => some (false, rest)
    | none =>
        match stripLit "bottom".toList cs with
        | some rest => some (true, rest)
        | none => none
  match branch with
  | none => none
  | some (ascending, rest) =>
      let ws := rest.takeWhile Char.isWhitespace
      let afterWs := rest.dropWhile Char.isWhitespace
      if ws.isEmpty then none
      else
        let ds := afterWs.takeWhile Char.isDigit
        let afterDs := afterWs.dropWhile Char.isDigit
        if ds.isEmpty then none
        else
          let afterWs2 := afterDs.dropWhile Char.isWhitespace
          let pct : Bool := match afterWs2 with | '%' :: _ => true | _ => false
          some (ascending, digitsVal ds, pct)

/-- The outlier-detection methods of `OutlierComparator`. -/
inductive OMethod where
  | iqr | sd | mad
deriving DecidableEq, Repr

/-- Case-insensitive leading-literal strip (the outlier regex carries
`re.IGNORECASE`). -/
def stripLitCI : List Char → List Char → Option (List Char)
  | [], cs => some cs
  | _ :: _, [] => none
  | l :: ls, c :: cs => if l.toLower = c.toLower then stripLitCI ls cs else none

/-- Embedding of the match `re.match(r"(?P<side>\+|\-)?\s*(?P<whiskers>[0-9\.]+)\s+(?P<method>IQR|SD|MAD)", target, re.IGNORECASE)`
of `OutlierComparator.__call__`, together with the whisker assignment
that follows it: a leading `+` disables the low whisker, a leading `-`
disables the high whisker; `float()` of the whisker group raises
`ValueError` when the digits-and-dots group is not a decimal number. -/
def outlierParseTarget (target : String) : Except VError (Option Q × Option Q × OMethod) :=
  let cs := target.toList
  let sideAndRest : Option Char × List Char :=
    match cs with
    | '+' :: rest => (some '+', rest)
    | '-' :: rest => (some '-', rest)
    | _ => (none, cs)
  let side := sideAndRest.1
  let afterSide := sideAndRest.2.dropWhile Char.isWhitespace
  let wcs := afterSide.takeWhile (fun c => c.isDigit || c = '.')
  let afterW := afterSide.dropWhile (fun c => c.isDigit || c = '.')
  let ws := afterW.takeWhile Char.isWhitespace
  let afterWs := afterW.dropWhile Char.isWhitespace
  let methodMatch : Option OMethod :=
    if (stripLitCI "iqr".toList afterWs).isSome then some .iqr
    else if (stripLitCI "sd".toList afterWs).isSome then some .sd
    else if (stripLitCI "mad".toList afterWs).isSome then some .mad
    else none
  if wcs.isEmpty || ws.isEmpty || methodMatch.isNone then
    .error (.valueError ("OutlierComparator: Invalid target '" ++ target ++
      "', use (+|-)<whisker> <IQR|SD|MAD>."))
  else
    match parseDecimal (String.mk wcs) with
    | none => .error (.valueError ("could not convert string to float: '" ++ String.mk wcs ++ "'"))
    | some w =>
        let method := methodMatch.getD .iqr
        match side with
        | some '+' => .ok (none, some w, method)
        | some '-' => .ok (some w, none, method)
        | _ => .ok (some w, some w, method)

/-- Embedding of `_outlier_iqr`: first/third quartile and whisker bounds; a value is
flagged when it is `≤` the low bound or `≥` the high bound, and a
disabled (`None`) whisker makes its bound infinite (never triggers).
Missing cells compare false. -/
def outlierIqrFlags (wl wh : Option Q) (vs : List Val) : List Bool :=
  let l := presentRats vs
  let qlow := quantile l ((1 : Q).div 4)
  let qhigh := quantile l ((3 : Q).div 4)
  let iqr := qhigh.sub qlow
  vs.map (fun v =>
    match v with
    | .num x =>
        (match wl with | some w => x.le (qlow.sub (w.mul iqr)) | none => false) ||
        (match wh with | some w => (qhigh.add (w.mul iqr)).le x | none => false)
    | _ => false)

/-- Embedding of `_outlier_sd`: mean/standard-deviation bounds.  `std` is an
irrational square root, so the inequalities `x ≤ μ - w·σ` and
`x ≥ μ + w·σ` are expressed by the equivalent squared forms (valid since
`w ≥ 0` and `σ ≥ 0`): `μ - x ≥ w·σ ↔ μ - x ≥ 0 ∧ (μ - x)² ≥ w²·σ²`.
With fewer than two values `std` is `NaN` and nothing is flagged. -/
def outlierSdFlags (wl wh : Option Q) (vs : List Val) : List Bool :=
  let l := presentRats vs
  let μ := meanQ l
  let v2 := sampleVar l
  vs.map (fun v =>
    match v with
    | .num x =>
        if l.length < 2 then false
        else
          (match wl with
           | some w => (0 : Q).le (μ.sub x) && ((w.mul w).mul v2).le ((μ.sub x).mul (μ.sub x))
           | none => false) ||
          (match wh with
           | some w => (0 : Q).le (x.sub μ) && ((w.mul w).mul v2).le ((x.sub μ).mul (x.sub μ))
           | none => false)
    | _ => false)

/-- Embedding of `_outlier_mad`: median ± whisker · (1.483 · median absolute
deviation). -/
def outlierMadFlags (wl wh : Option Q) (vs : List Val) : List Bool :=
  let l := presentRats vs
  let m := medianQ l
  let made := ((1483 : Q).div 1000).mul (medianQ (l.map (fun x => (x.sub m).absQ)))
  vs.map (fun v =>
    match v with
    | .num x =>
        if l.isEmpty then false
        else
          (match wl with | some w => x.le (m.sub (w.mul made)) | none => false) ||
          (match wh with | some w => (m.add (w.mul made)).le x | none => false)
    | _ => false)

/-- One column of `df.apply(method, …, axis=0)` in
`OutlierComparator.__call__`.  The comparator has no dtype guard; on a
non-numeric column the statistical method itself raises (pandas
`quantile`/`mean`/`median` on object data), which is modelled as a
runtime error rather than the guard's `TypeError`. -/
def outlierColumn (method : OMethod) (wl wh : Option Q) (c : Column) :
    Except VError (List Bool) :=
  if c.dtype ≠ .number then
    .error (.runtimeError ("could not aggregate non-numeric column '" ++ c.name ++ "'"))
  else
    match method with
    | .iqr => .ok (outlierIqrFlags wl wh c.values)
    | .sd => .ok (outlierSdFlags wl wh c.values)
    | .mad => .ok (outlierMadFlags wl wh c.values)

namespace Comparators

/-- Embedding of `EqComparator.__call__` (flat module): per column, elementwise `==`
against the target coerced to that column's dtype. -/
def eqComparator (df : DataFrame) (t : Target) : Except VError BoolMatrix :=
  mapE (fun c => do
    let tvals ← broadcast t c.values.length
    let tc ← mapE (fun v => coerceVal v c.dtype) tvals
    pure (List.zipWith eqVal c.values tc)) df

/-- Embedding of `UnEqComparator.__call__` (flat module): literally `~eq_comp(df, target)`. -/
def uneqComparator (df : DataFrame) (t : Target) : Except VError BoolMatrix :=
  (eqComparator df t).map (List.map (List.map (fun b => !b)))

/-- The shared body of the flat module's `Gt`/`GtEq`/`Lt`/`LtEq`
comparators: numeric dtype guard, then the elementwise comparison of
`df` against the target cast to float (`df.gt(target.astype(float), axis=0)`
and friends; the row-aligned target series is distributed per column). -/
def numCompare (op : CmpOp) (df : DataFrame) (t : Target) : Except VError BoolMatrix := do
  checkDtypes df .number
  mapE (fun c => do
    let tvals ← broadcast t c.values.length
    let tf ← mapE valToFloat tvals
    pure (List.zipWith (cellCmpFloat op) c.values tf)) df

/-- Embedding of `GtComparator.__call__` (flat module). -/
def gtComparator (df : DataFrame) (t : Target) : Except VError BoolMatrix :=
  numCompare .gt df t

/-- Embedding of `GtEqComparator.__call__` (flat module). -/
def gteComparator (df : DataFrame) (t : Target) : Except VError BoolMatrix :=
  numCompare .gte df t

/-- Embedding of `LtComparator.__call__` (flat module). -/
def ltComparator (df : DataFrame) (t : Target) : Except VError BoolMatrix :=
  numCompare .lt df t

/-- Embedding of `LtEqComparator.__call__` (flat module). -/
def lteComparator (df : DataFrame) (t : Target) : Except VError BoolMatrix :=
  numCompare .lte df t

/-- Python `str()` rendering of a cell, used by
`df.astype(str).isin(target)`: integers render without a decimal point,
missing renders as `"nan"`.  (Float renderings are approximated by the
rational rendering; only membership shape matters to the claims.) -/
def valToStr (v : Val) : String :=
  match v with
  | .num q => if q.den = 1 then toString q.num else toString q.num ++ "/" ++ toString q.den
  | .str s => s
  | .missing => "nan"

/-- Embedding of `InComparator.__call__` (flat module): split the target on commas,
trim each element, compare cells as strings.  (The `AttributeError`
branch fires only for a non-string target, which the string-typed model
cannot express.) -/
def inComparator (df : DataFrame) (target : String) : Except VError BoolMatrix :=
  let items := (splitOnChar ',' target.toList).map (fun p => String.mk (trimChars p))
  .ok (df.map (fun c => c.values.map (fun v => items.contains (valToStr v))))

/-- Embedding of `BetweenComparator.__call__` (flat module): numeric dtype guard, then
`low, high` parsed as floats from a `"low:high"` target (an unpack or
float failure raises the `RuntimeError` below), then the inclusive range
test per element (`applymap`); missing cells give `False`. -/
def betweenComparator (df : DataFrame) (target : String) : Except VError BoolMatrix := do
  checkDtypes df .number
  match (splitOnChar ':' target.toList).map (fun p => parseDecimal (String.mk p)) with
  | [some low, some high] =>
      pure (df.map (fun c => c.values.map (fun v =>
        match v with
        | .num a => low.le a && a.le high
        | _ => false)))
  | _ =>
      .error (.runtimeError ("BetweenComparator: Non-numeric bounds in target '" ++
        target ++ "'."))

/-- Embedding of `NullComparator.__call__` (flat module): `df.isna()`; the target is
never used. -/
def nullComparator (df : DataFrame) (_t : Option Target) : BoolMatrix :=
  df.map (fun c => c.values.map Val.isMissing)

/-- Embedding of `NotNullComparator.__call__` (flat module): `~df.isna()`. -/
def notNullComparator (df : DataFrame) (_t : Option Target) : BoolMatrix :=
  df.map (fun c => c.values.map (fun v => !v.isMissing))

/-- Embedding of `RankComparator.__call__` (flat module): numeric dtype guard, target
regex match (`ValueError` on failure), percentile range check
(`ValueError` unless `0 < rank < 100`), then `df.rank(…) <= rank`. -/
def rankComparator (df : DataFrame) (target : String) : Except VError BoolMatrix := do
  checkDtypes df .number
  match rankParseTarget target with
  | none =>
      .error (.valueError ("RankComparator: Invalid target '" ++ target ++
        "', use <top|bottom> <rank> (%)."))
  | some (ascending, n, pct) =>
      if pct && !(decide (0 < n) && decide (n < 100)) then
        .error (.valueError ("RankComparator: Percentile rank must be between 0 - 100, got " ++
          toString n ++ " instead."))
      else
        let thr : Q := if pct then (Q.ofNat n).div 100 else Q.ofNat n
        pure (df.map (fun c => (rankColumn ascending pct c.values).map (fun r? =>
          match r? with
          | some r => r.le thr
          | none => false)))

/-- Embedding of `ContainsComparator.__call__` (flat module): text dtype guard, then
`col.str.contains(target, regex=True, na=False)` per column.  The Python
`re` engine is external to the repository, so the regex matcher is a
parameter; missing and non-text cells are `False` (`na=False`). -/
def containsComparator (matcher : String → String → Bool) (df : DataFrame)
    (target : String) : Except VError BoolMatrix := do
  checkDtypes df .object
  pure (df.map (fun c => c.values.map (fun v =>
    match v with
    | .str s => matcher target s
    | _ => false)))

/-- Embedding of `OutlierComparator.__call__` (flat module): parse the target
(`ValueError` on a malformed one), pick the method, apply it per column.
There is no dtype guard. -/
def outlierComparator (df : DataFrame) (target : String) : Except VError BoolMatrix := do
  let parsed ← outlierParseTarget target
  mapE (outlierColumn parsed.2.2 parsed.1 parsed.2.1) df

end Comparators

/-- The dtype of the row cross-sections produced by
`df.apply(…, axis=1)`: the common dtype when all columns share one,
`object` otherwise. -/
def rowDtype (df : DataFrame) : Dtype :=
  if df.all (fun c => c.dtype = .number) then .number else .object

namespace RowWise

/-- Embedding of `CompareMixin._compare` for a dataframe and a scalar target:
`data.apply(self._compare_series, …, axis=1)` hands `_compare_series`
each row cross-section, whose dtype is the common dtype of the columns;
the target is wrapped as `pd.Series(target, index=…, dtype=series.dtype)`
(a fallible cast) and compared with the elementwise `pd.Series` method
named by `comp`.  Since the comparison methods are elementwise, the
row-by-row application equals the per-column application below with the
target coerced once to the row dtype.  (A `pd.Series` target would be
aligned against the cross-section's column index and is outside the
model; `comp` is always one of the `valid` method names by construction
of `CmpOp`.) -/
def compare (op : CmpOp) (df : DataFrame) (v : Val) : Except VError BoolMatrix := do
  let tv ← coerceVal v (rowDtype df)
  mapE (fun c => mapE (fun x => valCmpE op x tv) c.values) df

/-- Embedding of `EqComparator.__call__` (package): `self._compare(df, target, "eq")`. -/
def eqComparator (df : DataFrame) (v : Val) : Except VError BoolMatrix :=
  compare .eq df v

/-- Embedding of `UnEqComparator.__call__` (package): `self._compare(df, target, "ne")`. -/
def uneqComparator (df : DataFrame) (v : Val) : Except VError BoolMatrix :=
  compare .ne df v

/-- Embedding of `GtComparator.__call__` (package): `self._compare(df, target, "gt")`;
note there is no numeric dtype guard. -/
def gtComparator (df : DataFrame) (v : Val) : Except VError BoolMatrix :=
  compare .gt df v

/-- Embedding of `GtEqComparator.__call__` (package): `self._compare(df, target, "gte")`. -/
def gteComparator (df : DataFrame) (v : Val) : Except VError BoolMatrix :=
  compare .gte df v

/-- Embedding of `LtComparator.__call__` (package): `self._compare(df, target, "lt")`. -/
def ltComparator (df : DataFrame) (v : Val) : Except VError BoolMatrix :=
  compare .lt df v

/-- Embedding of `LtEqComparator.__call__` (package): `self._compare(df, target, "lte")`. -/
def lteComparator (df : DataFrame) (v : Val) : Except VError BoolMatrix :=
  compare .lte df v

/-- Embedding of `NullComparator.__call__` (package): verbatim the flat module's body
(`df.isna()`). -/
def nullComparator (df : DataFrame) (_t : Option Target) : BoolMatrix :=
  df.map (fun c => c.values.map Val.isMissing)

/-- Embedding of `NotNullComparator.__call__` (package): verbatim the flat module's
body (`~df.isna()`). -/
def notNullComparator (df : DataFrame) (_t : Option Target) : BoolMatrix :=
  df.map (fun c => c.values.map (fun v => !v.isMissing))

/-- Embedding of `InComparator.__call__` (package): verbatim the flat module's body. -/
def inComparator (df : DataFrame) (target : String) : Except VError BoolMatrix :=
  let items := (splitOnChar ',' target.toList).map (fun p => String.mk (trimChars p))
  .ok (df.map (fun c => c.values.map (fun v => items.contains (Comparators.valToStr v))))

/-- Embedding of `BetweenComparator.__call__` (package): verbatim the flat module's
body. -/
def betweenComparator (df : DataFrame) (target : String) : Except VError BoolMatrix := do
  checkDtypes df .number
  match (splitOnChar ':' target.toList).map (fun p => parseDecimal (String.mk p)) with
  | [some low, some high] =>
      pure (df.map (fun c => c.values.map (fun v =>
        match v with
        | .num a => low.le a && a.le high
        | _ => false)))
  | _ =>
      .error (.runtimeError ("BetweenComparator: Non-numeric bounds in target '" ++
        target ++ "'."))

/-- Embedding of `ContainsComparator.__call__` (package): verbatim the flat module's
body. -/
def containsComparator (matcher : String → String → Bool) (df : DataFrame)
    (target : String) : Except VError BoolMatrix := do
  checkDtypes df .object
  pure (df.map (fun c => c.values.map (fun v =>
    match v with
    | .str s => matcher target s
    | _ => false)))

/-- Embedding of `RankComparator.__call__` (package): verbatim the flat module's
body. -/
def rankComparator (df : DataFrame) (target : String) : Except VError BoolMatrix := do
  checkDtypes df .number
  match rankParseTarget target with
  | none =>
      .error (.valueError ("RankComparator: Invalid target '" ++ target ++
        "', use <top|bottom> <rank> (%)."))
  | some (ascending, n, pct) =>
      if pct && !(decide (0 < n) && decide (n < 100)) then
        .error (.valueError ("RankComparator: Percentile rank must be between 0 - 100, got " ++
          toString n ++ " instead."))
      else
        let thr : Q := if pct then (Q.ofNat n).div 100 else Q.ofNat n
        pure (df.map (fun c => (rankColumn ascending pct c.values).map (fun r? =>
          match r? with
          | some r => r.le thr
          | none => false)))

/-- Embedding of `OutlierComparator.__call__` (package): verbatim the flat module's
body (the `OutlierMixin` methods are character-identical to the flat
module's static methods). -/
def outlierComparator (df : DataFrame) (target : String) : Except VError BoolMatrix := do
  let parsed ← outlierParseTarget target
  mapE (outlierColumn parsed.2.2 parsed.1 parsed.2.1) df

end RowWise

/-- Tags for the registered comparator subclasses (one per `symbol`
attribute found by `Comparator.get_subclasses`). -/
inductive ComparatorTag where
  | nullC | notNullC | eqC | uneqC | gtC | gteC | ltC | lteC
  | inListC | betweenC | containsC | rankC | outlierC
deriving DecidableEq, Repr

/-- The comparator registry: `{comp.symbol: comp for comp in cls.get_subclasses()}`,
in class-definition order.  The `column_wise` classes carry no `symbol`
and do not subclass `Comparator`, so they are not registered; the flat
module registers the same symbol set. -/
def comparatorRegistry : List (String × ComparatorTag) :=
  [("missing", .nullC), ("not missing", .notNullC), ("==", .eqC), ("!=", .uneqC),
   (">", .gtC), (">=", .gteC), ("<", .ltC), ("<=", .lteC), ("in", .inListC),
   ("between", .betweenC), ("contains", .containsC), ("ranks in", .rankC),
   ("is outlier by", .outlierC)]

/-- Tags for the registered operator subclasses. -/
inductive OperatorTag where
  | meanO | medianO | minO | maxO | sumO | anyO | allO | noneO
deriving DecidableEq, Repr

/-- The operator registry (`operators/data.py` then `operators/logical.py`,
in class-definition order). -/
def operatorRegistry : List (String × OperatorTag) :=
  [("mean", .meanO), ("median", .medianO), ("min", .minO), ("max", .maxO),
   ("sum", .sumO), ("any", .anyO), ("all", .allO), ("none", .noneO)]

/-- Dictionary lookup by symbol. -/
def lookupSymbol (reg : List (String × α)) (s : String) : Option α :=
  match reg with
  | [] => none
  | kv :: rest => if kv.1 = s then some kv.2 else lookupSymbol rest s

/-- The registered comparator symbols (`Comparator.list()`). -/
def comparatorSymbols : List String := comparatorRegistry.map Prod.fst

/-- The registered operator symbols (`Operator.list()`). -/
def operatorSymbols : List String := operatorRegistry.map Prod.fst

/-- Embedding of `Comparator.get`: resolve a comparator by symbol; raises
`TypeError(f"Unknown Comparator: {symbol}.")` for an unregistered one. -/
def comparatorGet (s : String) : Except VError ComparatorTag :=
  match lookupSymbol comparatorRegistry s with
  | some tag => .ok tag
  | none => .error (.unknownSymbol ("Unknown Comparator: " ++ s ++ "."))

/-- Embedding of `Operator.get`: resolve an operator by symbol; raises
`TypeError(f"Unknown Operator: {symbol}.")` for an unregistered one. -/
def operatorGet (s : String) : Except VError OperatorTag :=
  match lookupSymbol operatorRegistry s with
  | some tag => .ok tag
  | none => .error (.unknownSymbol ("Unknown Operator: " ++ s ++ "."))

/-- Whether `needle` is a prefix of `hay` (on characters). -/
def hasPrefixC : List Char → List Char → Bool
  | [], _ => true
  | _ :: _, [] => false
  | a :: as, b :: bs => decide (a = b) && hasPrefixC as bs

/-- Whether `needle` occurs as a contiguous substring of `hay`. -/
def occursIn : List Char → List Char → Bool
  | needle, [] => needle.isEmpty
  | needle, c :: rest => hasPrefixC needle (c :: rest) || occursIn needle rest

theorem hasPrefixC_self_append (n t : List Char) : hasPrefixC n (n ++ t) = true := by
  induction n with
  | nil => rfl
  | cons c cs ih => simp [hasPrefixC, ih]

theorem occursIn_self_append (n t : List Char) : occursIn n (n ++ t) = true := by
  cases n with
  | nil =>
      cases t with
      | nil => rfl
      | cons c cs => simp [occursIn, hasPrefixC]
  | cons c cs =>
      simp only [List.cons_append, occursIn]
      have h : hasPrefixC (c :: cs) (c :: cs ++ t) = true := hasPrefixC_self_append (c :: cs) t
      simp only [List.cons_append] at h
      simp [h]

theorem occursIn_append_left (n p t : List Char) (h : occursIn n t = true) :
    occursIn n (p ++ t) = true := by
  induction p with
  | nil => exact h
  | cons c cs ih => simp [occursIn, ih]

/-! ### Tokenizer and Parser

`validata/parser.py` is in the source tree; the `Tokenizer` and
`Evaluator` modules it imports are not.  The tokenizer below is modelled
from the specification (§4.1) with the marker table `Parser.token_types`
taken from `parser.py`; leaf evaluation (the `Evaluator`) is abstracted
as a function parameter. -/

/-- Token kinds produced by the tokenizer. -/
inductive TokenType where
  | and_tok | or_tok | groupOpen | groupClose | expr
deriving DecidableEq, Repr

/-- A token: kind plus text. -/
structure Token where
  type : TokenType
  value : String
deriving DecidableEq, Repr

/-- Modelled from the spec: the marker table of the missing `Tokenizer`
module, with the literal markers taken from `Parser.token_types` in
`parser.py` (`AND`: `" and "`, `" & "`; `OR`: `" or "`, `" | "`;
`GROUP_OPEN`: `"("`; `GROUP_CLOSE`: `")"`). -/
def markers : List (List Char × TokenType) :=
  [(" and ".toList, .and_tok), (" & ".toList, .and_tok),
   (" or ".toList, .or_tok), (" | ".toList, .or_tok),
   ("(".toList, .groupOpen), (")".toList, .groupClose)]

/-- The first marker (in table order) matching at the head of `cs`. -/
def markerAt (cs : List Char) : Option (List Char × TokenType) :=
  markers.findSome? (fun m => if hasPrefixC m.1 cs then some m else none)

/-- The leftmost marker occurrence in `cs`: its offset, text and kind. -/
def findMarker : List Char → Option (ℕ × List Char × TokenType)
  | [] => none
  | c :: rest =>
      match markerAt (c :: rest) with
      | some (m, t) => some (0, m, t)
      | none =>
          match findMarker rest with
          | some (i, m, t) => some (i + 1, m, t)
          | none => none

/-- Modelled from the spec: the scanning loop of the missing `Tokenizer`
module (§4.1).  Text before the leftmost marker becomes a trimmed `EXPR`
token when non-empty, the marker becomes a token of its kind, and the
remainder is scanned further; trailing text becomes a final `EXPR`.
Fuel decreases on every emitted marker (each consumes at least one
character). -/
def tokenizeAux : ℕ → List Char → List Token
  | 0, _ => []
  | fuel + 1, cs =>
      match findMarker cs with
      | none =>
          let txt := trimChars cs
          if txt.isEmpty then [] else [⟨.expr, String.mk txt⟩]
      | some (i, m, t) =>
          let pre := trimChars (cs.take i)
          let rest := cs.drop (i + m.length)
          (if pre.isEmpty then [] else [⟨.expr, String.mk pre⟩]) ++
            ⟨t, String.mk (trimChars m)⟩ :: tokenizeAux fuel rest

/-- Tokenize a rule string: newlines are first replaced by spaces
(`Parser.__init__`), then the marker scan runs. -/
def tokenize (s : String) : List Token :=
  let cs := s.toList.map (fun c => if c = '\n' then ' ' else c)
  tokenizeAux (cs.length + 1) cs

/-- Embedding of `np.all(result.join(right_hand, rsuffix="_rh"), axis=1)`: row-wise
conjunction over all columns of the joined matrix. -/
def rowAll (m : BoolMatrix) : List Bool :=
  match m with
  | [] => []
  | c :: cs => cs.foldl (fun acc col => List.zipWith (fun a b => a && b) acc col) c

/-- Embedding of `np.any(result.join(right_hand, rsuffix="_rh"), axis=1)`: row-wise
disjunction over all columns of the joined matrix. -/
def rowAny (m : BoolMatrix) : List Bool :=
  match m with
  | [] => []
  | c :: cs => cs.foldl (fun acc col => List.zipWith (fun a b => a || b) acc col) c

/-- The tail of every `Parser.evaluate` call:
`result.columns = [self._id]; return result`.  When the loop never
assigned `result`, this is the Python `AttributeError` on `None`
(column labels themselves are not modelled). -/
def finish (res : Option BoolMatrix) : Except VError BoolMatrix :=
  match res with
  | none => .error (.runtimeError "AttributeError: 'NoneType' object has no attribute 'columns'")
  | some m => .ok m

/-- The token loop of `Parser.evaluate`, with the token stream passed
explicitly (the shared `Tokenizer` cursor) and leaf evaluation
(`Evaluator(token.value).evaluate(df)`) abstracted as `f`.  Returns the
`result` local and the unconsumed tokens.  Fuel only bounds the
recursion depth; every recursive call consumes at least one token, so
`tokens.length + 1` fuel always suffices. -/
def evalAux (f : String → Except VError BoolMatrix) :
    ℕ → List Token → Option BoolMatrix → Except VError (Option BoolMatrix × List Token)
  | _, [], res => .ok (res, [])
  | 0, _ :: _, _ => .error (.runtimeError "recursion fuel exhausted")
  | fuel + 1, tok :: ts, res =>
      match tok.type with
      | .groupOpen => do
          let nested ← evalAux f fuel ts none
          let m ← finish nested.1
          evalAux f fuel nested.2 (some m)
      | .groupClose => .ok (res, ts)
      | .and_tok =>
          match res with
          | none => .error (.valueError "Use of and / or without left hand side expression.")
          | some left =>
              match ts with
              | [] => .error (.runtimeError "StopIteration")
              | nt :: ts' =>
                  if nt.type = .groupOpen then do
                    let nested ← evalAux f fuel ts' none
                    let rh ← finish nested.1
                    evalAux f fuel nested.2 (some [rowAll (left ++ rh)])
                  else do
                    let rh ← f nt.value
                    evalAux f fuel ts' (some [rowAll (left ++ rh)])
      | .or_tok =>
          match res with
          | none => .error (.valueError "Use of and / or without left hand side expression.")
          | some left =>
              match ts with
              | [] => .error (.runtimeError "StopIteration")
              | nt :: ts' =>
                  if nt.type = .groupOpen then do
                    let nested ← evalAux f fuel ts' none
                    let rh ← finish nested.1
                    evalAux f fuel nested.2 (some [rowAny (left ++ rh)])
                  else do
                    let rh ← f nt.value
                    evalAux f fuel ts' (some [rowAny (left ++ rh)])
      | .expr =>
          match res with
          | some _ => .error (.valueError "Expected and / or, got expression instead.")
          | none => do
              let m ← f tok.value
              evalAux f fuel ts (some m)

/-- Embedding of `Parser.evaluate` on a token list: run the loop from an unset
`result` and finish (rename / `AttributeError` on `None`). -/
def parserEvaluate (f : String → Except VError BoolMatrix) (tokens : List Token) :
    Except VError BoolMatrix := do
  let out ← evalAux f (tokens.length + 1) tokens none
  finish out.1

/-- End-to-end evaluation of a rule string: tokenize, then parse. -/
def parserRun (f : String → Except VError BoolMatrix) (expression : String) :
    Except VError BoolMatrix :=
  parserEvaluate f (tokenize expression)

/-! ### Shared lemmas -/

theorem lookupSymbol_eq_none (reg : List (String × α)) (s : String)
    (h : s ∉ reg.map Prod.fst) : lookupSymbol reg s = none := by
  induction reg with
  | nil => rfl
  | cons kv rest ih =>
      simp only [List.map_cons, List.mem_cons] at h
      push_neg at h
      simp [lookupSymbol, if_neg (Ne.symm h.1), ih h.2]

theorem mapE_map_post (g : α → Except VError β) (h : β → γ) (l : List α) :
    mapE (fun x => (g x).map h) l = (mapE g l).map (List.map h) := by
  induction l with
  | nil => rfl
  | cons x xs ih =>
      cases hx : g x with
      | error e => simp [mapE, bind, Except.bind, hx, Except.map]
      | ok y =>
          cases hxs : mapE g xs with
          | error e =>
              rw [hxs] at ih
              simp only [Except.map] at ih
              simp [mapE, bind, Except.bind, hx, hxs, ih, Except.map]
          | ok ys =>
              rw [hxs] at ih
              simp only [Except.map] at ih
              simp [mapE, bind, Except.bind, hx, hxs, ih, Except.map, pure, Except.pure]

theorem getD_eq_of_get? (l : List α) (i : ℕ) (b d : α) (h : l.get? i = some b) :
    l.getD i d = b := by
  simp [List.getD_eq_getElem?_getD, ← List.get?_eq_getElem?, h]

theorem getD_eq_of_ge (l : List α) (i : ℕ) (d : α) (h : l.length ≤ i) :
    l.getD i d = d := by
  simp [List.getD_eq_getElem?_getD, ← List.get?_eq_getElem?, List.get?_eq_none.mpr h]

theorem map_ext (l : List α) (f g : α → β) (h : ∀ a, f a = g a) :
    l.map f = l.map g := by
  induction l with
  | nil => rfl
  | cons x xs ih => simp [h, ih]

/-! ### Shape of comparator outputs -/

/-- Default column for out-of-range indexing in the shape predicate. -/
def emptyColumn : Column := ⟨"", Dtype.object, []⟩

/-- The boolean matrix `m` has exactly the shape of `df`: one output
column per selected column, each with that column's row count. -/
def shapeMatches (df : DataFrame) (m : BoolMatrix) : Prop :=
  m.length = df.length ∧
  ∀ i, (m.getD i []).length = ((df.getD i emptyColumn).values).length

theorem shape_map (df : DataFrame) (g : Column → List Bool)
    (hg : ∀ c, (g c).length = c.values.length) : shapeMatches df (df.map g) := by
  refine ⟨List.length_map df g, fun i => ?_⟩
  by_cases hi : i < df.length
  · have hc : df.get? i = some (df.get ⟨i, hi⟩) := List.get?_eq_get hi
    have hm : (df.map g).get? i = some (g (df.get ⟨i, hi⟩)) := by
      rw [List.get?_map, hc]; rfl
    rw [getD_eq_of_get? _ _ _ _ hm, getD_eq_of_get? _ _ _ _ hc, hg]
  · have h1 : df.length ≤ i := Nat.le_of_not_lt hi
    rw [getD_eq_of_ge _ _ _ (by simpa using h1), getD_eq_of_ge _ _ _ h1]
    rfl

theorem shape_mapE (df : DataFrame) (g : Column → Except VError (List Bool))
    (hg : ∀ c l, g c = .ok l → l.length = c.values.length)
    (m : BoolMatrix) (h : mapE g df = .ok m) : shapeMatches df m := by
  refine ⟨mapE_ok_length g df m h, fun i => ?_⟩
  by_cases hi : i < df.length
  · obtain ⟨b, hb, hp⟩ :=
      mapE_ok_forall g df m (fun c l => l.length = c.values.length) hg h i hi
    have hc : df.get? i = some (df.get ⟨i, hi⟩) := List.get?_eq_get hi
    rw [getD_eq_of_get? _ _ _ _ hb, getD_eq_of_get? _ _ _ _ hc]
    exact hp _ hc
  · have h1 : df.length ≤ i := Nat.le_of_not_lt hi
    have h2 : m.length ≤ i := by rw [mapE_ok_length g df m h]; exact h1
    rw [getD_eq_of_ge _ _ _ h2, getD_eq_of_ge _ _ _ h1]
    rfl

theorem shape_mapNot (df : DataFrame) (m : BoolMatrix) (f : Bool → Bool)
    (h : shapeMatches df m) : shapeMatches df (m.map (List.map f)) := by
  obtain ⟨h1, h2⟩ := h
  refine ⟨by simpa using h1, fun i => ?_⟩
  by_cases hi : i < m.length
  · have hc : m.get? i = some (m.get ⟨i, hi⟩) := List.get?_eq_get hi
    have hm : (m.map (List.map f)).get? i = some (List.map f (m.get ⟨i, hi⟩)) := by
      rw [List.get?_map, hc]; rfl
    rw [getD_eq_of_get? _ _ _ _ hm, List.length_map,
      ← getD_eq_of_get? m i _ [] hc]
    exact h2 i
  · have hge : m.length ≤ i := Nat.le_of_not_lt hi
    have h2' := h2 i
    rw [getD_eq_of_ge m i [] hge] at h2'
    rw [getD_eq_of_ge _ _ _ (by simpa using hge)]
    exact h2'

/-- Length of one column of the broadcast-coerce-compare pattern shared
by the flat module's Eq and ordering comparators. -/
theorem zipTarget_length (c : Column) (t : Target) (conv : Val → Except VError β)
    (cmp : Val → β → Bool) (l : List Bool)
    (h : (do
        let tvals ← broadcast t c.values.length
        let tf ← mapE conv tvals
        pure (List.zipWith cmp c.values tf) : Except VError (List Bool)) = .ok l) :
    l.length = c.values.length := by
  simp only [bind, Except.bind] at h
  cases hb : broadcast t c.values.length with
  | error e => simp only [hb] at h; exact Except.noConfusion h
  | ok tvals =>
      simp only [hb] at h
      cases hm : mapE conv tvals with
      | error e => simp only [hm] at h; exact Except.noConfusion h
      | ok tf =>
          simp only [hm, pure, Except.pure, Except.ok.injEq] at h
          subst h
          rw [List.length_zipWith, mapE_ok_length conv tvals tf hm,
            broadcast_ok_length t c.values.length tvals hb, min_self]

theorem eq_shape (df : DataFrame) (t : Target) (m : BoolMatrix)
    (h : Comparators.eqComparator df t = .ok m) : shapeMatches df m :=
  shape_mapE df _ (fun c l hcl =>
    zipTarget_length c t (fun v => coerceVal v c.dtype) eqVal l hcl) m h

theorem uneq_shape (df : DataFrame) (t : Target) (m : BoolMatrix)
    (h : Comparators.uneqComparator df t = .ok m) : shapeMatches df m := by
  unfold Comparators.uneqComparator at h
  cases he : Comparators.eqComparator df t with
  | error e => rw [he] at h; simp only [Except.map] at h; cases h
  | ok m' =>
      rw [he] at h
      simp only [Except.map, Except.ok.injEq] at h
      subst h
      exact shape_mapNot df m' _ (eq_shape df t m' he)

theorem numCompare_shape (op : CmpOp) (df : DataFrame) (t : Target) (m : BoolMatrix)
    (h : Comparators.numCompare op df t = .ok m) : shapeMatches df m := by
  unfold Comparators.numCompare at h
  simp only [bind, Except.bind] at h
  cases hck : checkDtypes df .number with
  | error e => rw [hck] at h; cases h
  | ok u =>
      rw [hck] at h
      exact shape_mapE df _ (fun c l hcl =>
        zipTarget_length c t valToFloat (cellCmpFloat op) l hcl) m h

theorem in_shape (df : DataFrame) (s : String) (m : BoolMatrix)
    (h : Comparators.inComparator df s = .ok m) : shapeMatches df m := by
  unfold Comparators.inComparator at h
  injection h with h
  subst h
  exact shape_map df _ (fun c => List.length_map _ _)

theorem between_shape (df : DataFrame) (s : String) (m : BoolMatrix)
    (h : Comparators.betweenComparator df s = .ok m) : shapeMatches df m := by
  unfold Comparators.betweenComparator at h
  simp only [bind, Except.bind] at h
  cases hck : checkDtypes df .number with
  | error e => rw [hck] at h; cases h
  | ok u =>
      rw [hck] at h
      generalize (splitOnChar ':' s.toList).map (fun p => parseDecimal (String.mk p)) = ps at h
      rcases ps with _ | ⟨_ | lowv, ps1⟩
      · exact Except.noConfusion h
      · exact Except.noConfusion h
      · rcases ps1 with _ | ⟨_ | hiv, ps2⟩
        · exact Except.noConfusion h
        · exact Except.noConfusion h
        · rcases ps2 with _ | ⟨r, ps3⟩
          · simp only [pure, Except.pure, Except.ok.injEq] at h
            subst h
            exact shape_map df _ (fun c => List.length_map _ _)
          · exact Except.noConfusion h

theorem rank_shape (df : DataFrame) (s : String) (m : BoolMatrix)
    (h : Comparators.rankComparator df s = .ok m) : shapeMatches df m := by
  unfold Comparators.rankComparator at h
  simp only [bind, Except.bind] at h
  cases hck : checkDtypes df .number with
  | error e => rw [hck] at h; cases h
  | ok u =>
      rw [hck] at h
      cases hp : rankParseTarget s with
      | none => simp only [hp] at h; exact Except.noConfusion h
      | some triple =>
          obtain ⟨asc, n, pct⟩ := triple
          simp only [hp] at h
          by_cases hcond : (pct && !(decide (0 < n) && decide (n < 100))) = true
          · rw [if_pos hcond] at h
            exact Except.noConfusion h
          · rw [if_neg hcond] at h
            simp only [pure, Except.pure, Except.ok.injEq] at h
            subst h
            refine shape_map df _ (fun c => ?_)
            simp [rankColumn, List.length_map]

theorem contains_shape (matcher : String → String → Bool) (df : DataFrame)
    (s : String) (m : BoolMatrix)
    (h : Comparators.containsComparator matcher df s = .ok m) : shapeMatches df m := by
  unfold Comparators.containsComparator at h
  simp only [bind, Except.bind] at h
  cases hck : checkDtypes df .object with
  | error e => rw [hck] at h; cases h
  | ok u =>
      rw [hck] at h
      simp only [pure, Except.pure, Except.ok.injEq] at h
      subst h
      exact shape_map df _ (fun c => List.length_map _ _)

theorem outlierColumn_length (method : OMethod) (wl wh : Option Q) (c : Column)
    (l : List Bool) (h : outlierColumn method wl wh c = .ok l) :
    l.length = c.values.length := by
  unfold outlierColumn at h
  split at h
  · cases h
  · cases method <;>
      (simp only [Except.ok.injEq] at h; subst h;
       simp [outlierIqrFlags, outlierSdFlags, outlierMadFlags, List.length_map])

theorem outlier_shape (df : DataFrame) (s : String) (m : BoolMatrix)
    (h : Comparators.outlierComparator df s = .ok m) : shapeMatches df m := by
  unfold Comparators.outlierComparator at h
  simp only [bind, Except.bind] at h
  cases hp : outlierParseTarget s with
  | error e => rw [hp] at h; cases h
  | ok parsed =>
      rw [hp] at h
      exact shape_mapE df _
        (fun c l hcl => outlierColumn_length parsed.2.2 parsed.1 parsed.2.1 c l hcl) m h

theorem rowCompare_shape (op : CmpOp) (df : DataFrame) (v : Val) (m : BoolMatrix)
    (h : RowWise.compare op df v = .ok m) : shapeMatches df m := by
  unfold RowWise.compare at h
  simp only [bind, Except.bind] at h
  cases hc : coerceVal v (rowDtype df) with
  | error e => rw [hc] at h; cases h
  | ok tv =>
      rw [hc] at h
      exact shape_mapE df _ (fun c l hcl => mapE_ok_length _ _ _ hcl) m h

theorem null_shape (df : DataFrame) (t : Option Target) :
    shapeMatches df (Comparators.nullComparator df t) :=
  shape_map df _ (fun c => List.length_map _ _)

theorem notNull_shape (df : DataFrame) (t : Option Target) :
    shapeMatches df (Comparators.notNullComparator df t) :=
  shape_map df _ (fun c => List.length_map _ _)

/-! ### Claims -/

/-- C10: the Missing and NotMissing comparators ignore the target
entirely — any two target values (including no target at all) give the
identical boolean matrix, true exactly where a cell is missing (Missing)
or present (NotMissing); this holds in both the flat module and the
package, whose implementations coincide. -/
theorem missing_comparators_ignore_target (df : DataFrame) (t₁ t₂ : Option Target) :
    Comparators.nullComparator df t₁ = Comparators.nullComparator df t₂ ∧
    Comparators.notNullComparator df t₁ = Comparators.notNullComparator df t₂ ∧
    Comparators.nullComparator df t₁ = df.map (fun c => c.values.map Val.isMissing) ∧
    Comparators.notNullComparator df t₁ =
      df.map (fun c => c.values.map (fun v => !v.isMissing)) ∧
    RowWise.nullComparator df t₁ = Comparators.nullComparator df t₂ ∧
    RowWise.notNullComparator df t₁ = Comparators.notNullComparator df t₂ :=
  ⟨rfl, rfl, rfl, rfl, rfl, rfl⟩

/-- C8: for every dataframe and every target (scalar or per-row vector
in the flat module, scalar in the package mixin; missing values
included), the UnEq comparator's result is the exact elementwise logical
negation of the Eq comparator's result — on errors as well as on
successes. -/
theorem uneq_is_negation_of_eq (df : DataFrame) (t : Target) (v : Val) :
    Comparators.uneqComparator df t =
      (Comparators.eqComparator df t).map (List.map (List.map (fun b => !b))) ∧
    RowWise.uneqComparator df v =
      (RowWise.eqComparator df v).map (List.map (List.map (fun b => !b))) := by
  constructor
  · rfl
  · unfold RowWise.uneqComparator RowWise.eqComparator RowWise.compare
    cases hc : coerceVal v (rowDtype df) with
    | error e => simp [bind, Except.bind, hc, Except.map]
    | ok tv =>
        simp only [bind, Except.bind, hc]
        have hne : (fun x => valCmpE .ne x tv) =
            fun x => (valCmpE .eq x tv).map (fun b => !b) := rfl
        have hcol : (fun c : Column => mapE (fun x => valCmpE .ne x tv) c.values) =
            fun c : Column =>
              (mapE (fun x => valCmpE .eq x tv) c.values).map (List.map (fun b => !b)) := by
          funext c
          rw [hne, mapE_map_post]
        rw [hcol, mapE_map_post]

/-- C5 (amended): only the comparators duplicated verbatim between the
flat module and the package — Missing, NotMissing, In, Between,
Contains, RanksIn, IsOutlierBy — are behaviorally equal on every dataset
and target; the Eq/UnEq/Gt/GtEq/Lt/LtEq pairs differ (the package
versions omit the numeric dtype guard and coerce the target to the row
dtype instead of float). -/
theorem duplicated_comparators_equal :
    RowWise.nullComparator = Comparators.nullComparator ∧
    RowWise.notNullComparator = Comparators.notNullComparator ∧
    RowWise.inComparator = Comparators.inComparator ∧
    RowWise.betweenComparator = Comparators.betweenComparator ∧
    RowWise.containsComparator = Comparators.containsComparator ∧
    RowWise.rankComparator = Comparators.rankComparator ∧
    RowWise.outlierComparator = Comparators.outlierComparator :=
  ⟨rfl, rfl, rfl, rfl, rfl, rfl, rfl⟩

/-- C5 (counterexample): the comparator symbol `">"` is implemented in
both modules, yet on the one-column text dataframe `{a: ["b"]}` with
target `"a"` the flat-module implementation fails with a dtype
`TypeError` while the package implementation succeeds and returns
`[[True]]` — so the two implementations are not behaviorally equal. -/
theorem gt_implementations_differ :
    Comparators.gtComparator [⟨"a", .object, [.str "b"]⟩] (.scalar (.str "a")) =
      .error (.typeMismatch "number" ["a"]) ∧
    RowWise.gtComparator [⟨"a", .object, [.str "b"]⟩] (.str "a") = .ok [[true]] :=
  ⟨rfl, rfl⟩

/-- C4 (amended): looking up a symbol registered in neither registry
raises an unknown-symbol error whose message contains the requested
symbol — but not the set of valid registered symbols. -/
theorem unknown_symbol_error_names_symbol (s : String)
    (hc : s ∉ comparatorSymbols) (ho : s ∉ operatorSymbols) :
    comparatorGet s = .error (.unknownSymbol ("Unknown Comparator: " ++ s ++ ".")) ∧
    operatorGet s = .error (.unknownSymbol ("Unknown Operator: " ++ s ++ ".")) ∧
    occursIn s.toList ("Unknown Comparator: " ++ s ++ ".").toList = true ∧
    occursIn s.toList ("Unknown Operator: " ++ s ++ ".").toList = true := by
  refine ⟨?_, ?_, ?_, ?_⟩
  · simp [comparatorGet, lookupSymbol_eq_none comparatorRegistry s hc]
  · simp [operatorGet, lookupSymbol_eq_none operatorRegistry s ho]
  · have h : ("Unknown Comparator: " ++ s ++ ".").toList =
        "Unknown Comparator: ".toList ++ (s.toList ++ ".".toList) := by
      simp [String.toList]
    rw [h]
    exact occursIn_append_left _ _ _ (occursIn_self_append _ _)
  · have h : ("Unknown Operator: " ++ s ++ ".").toList =
        "Unknown Operator: ".toList ++ (s.toList ++ ".".toList) := by
      simp [String.toList]
    rw [h]
    exact occursIn_append_left _ _ _ (occursIn_self_append _ _)

/-- C4 (witness): the amended statement applied to the unregistered
symbol `"~~"`. -/
theorem unknown_symbol_error_names_symbol_witness :
    ("~~" ∉ comparatorSymbols ∧ "~~" ∉ operatorSymbols) ∧
    comparatorGet "~~" = .error (.unknownSymbol ("Unknown Comparator: " ++ "~~" ++ ".")) :=
  ⟨⟨by decide, by decide⟩,
    (unknown_symbol_error_names_symbol "~~" (by decide) (by decide)).1⟩

/-- C4 (counterexample): for the unregistered symbol `"~~"` the lookup
error message is exactly `"Unknown Comparator: ~~."` (resp.
`"Unknown Operator: ~~."`): it contains the requested symbol but none of
the valid registered symbols, contradicting the claim that the message
contains the set of valid symbols. -/
theorem unknown_symbol_error_lacks_valid_symbols :
    comparatorGet "~~" = .error (.unknownSymbol "Unknown Comparator: ~~.") ∧
    operatorGet "~~" = .error (.unknownSymbol "Unknown Operator: ~~.") ∧
    occursIn "~~".toList "Unknown Comparator: ~~.".toList = true ∧
    comparatorSymbols.all
      (fun sym => !occursIn sym.toList "Unknown Comparator: ~~.".toList) = true ∧
    operatorSymbols.all
      (fun sym => !occursIn sym.toList "Unknown Operator: ~~.".toList) = true :=
  ⟨rfl, rfl, by decide, by decide, by decide⟩

/-- C2 (amended): the numeric-only comparators that carry the dtype
guard — the flat module's Gt, GtEq, Lt, LtEq, Between and RanksIn, and
the package's Between and RanksIn — fail on a selection with a
non-numeric column with a `TypeError` carrying the offending column
names.  (The package's Gt/GtEq/Lt/LtEq and IsOutlierBy in both modules
perform no such guard; see the counterexample.) -/
theorem numeric_dtype_guard (df : DataFrame) (t : Target) (s : String)
    (h : invalidColumns df .number ≠ []) :
    Comparators.gtComparator df t =
      .error (.typeMismatch "number" (invalidColumns df .number)) ∧
    Comparators.gteComparator df t =
      .error (.typeMismatch "number" (invalidColumns df .number)) ∧
    Comparators.ltComparator df t =
      .error (.typeMismatch "number" (invalidColumns df .number)) ∧
    Comparators.lteComparator df t =
      .error (.typeMismatch "number" (invalidColumns df .number)) ∧
    Comparators.betweenComparator df s =
      .error (.typeMismatch "number" (invalidColumns df .number)) ∧
    Comparators.rankComparator df s =
      .error (.typeMismatch "number" (invalidColumns df .number)) ∧
    RowWise.betweenComparator df s =
      .error (.typeMismatch "number" (invalidColumns df .number)) ∧
    RowWise.rankComparator df s =
      .error (.typeMismatch "number" (invalidColumns df .number)) := by
  have hce := checkDtypes_error df .number h
  refine ⟨?_, ?_, ?_, ?_, ?_, ?_, ?_, ?_⟩ <;>
    simp [Comparators.gtComparator, Comparators.gteComparator, Comparators.ltComparator,
      Comparators.lteComparator, Comparators.numCompare, Comparators.betweenComparator,
      Comparators.rankComparator, RowWise.betweenComparator, RowWise.rankComparator,
      bind, Except.bind, hce, dtypeName]

/-- C2 (witness): the amended statement applied to the one-column text
dataframe `{a: ["b"]}`. -/
theorem numeric_dtype_guard_witness :
    invalidColumns [⟨"a", Dtype.object, [Val.str "b"]⟩] .number ≠ [] ∧
    Comparators.gtComparator [⟨"a", Dtype.object, [Val.str "b"]⟩] (.scalar (.num 1)) =
      .error (.typeMismatch "number" ["a"]) :=
  ⟨by decide,
    (numeric_dtype_guard [⟨"a", Dtype.object, [Val.str "b"]⟩] (.scalar (.num 1)) "2:4"
      (by decide)).1⟩

/-- C2 (counterexample): the package's Gt comparator — one of the
numeric-only comparators named by the claim — applied to the one-column
text dataframe `{a: ["b"]}` with target `"a"` returns the boolean matrix
`[[True]]` instead of failing with a type error. -/
theorem numeric_comparator_without_guard :
    (⟨"a", Dtype.object, [Val.str "b"]⟩ : Column).dtype ≠ .number ∧
    RowWise.gtComparator [⟨"a", Dtype.object, [Val.str "b"]⟩] (.str "a") = .ok [[true]] :=
  ⟨by decide, rfl⟩

/-- Concrete leaf evaluator for the unmatched-group example: the clause
`"a > 1"` evaluates to the single all-true column and `"b > 2"` to the
single all-false column. -/
def c3Leaf : String → Except VError BoolMatrix := fun s =>
  if s = "a > 1" then .ok [[true]]
  else if s = "b > 2" then .ok [[false]]
  else .error (.runtimeError ("no such clause: " ++ s))

/-- C3 (counterexample): evaluating `"a > 1 ) and b > 2"` — a rule with
an unmatched `GROUP_CLOSE` — does not raise any error: it returns the
result of the prefix `"a > 1"` alone (`[[true]]`), even though the full
conjunction would give `[[false]]`, so the `"and b > 2"` part was
silently ignored. -/
theorem unmatched_group_returns_partial_result :
    parserRun c3Leaf "a > 1 ) and b > 2" = .ok [[true]] ∧
    c3Leaf "b > 2" = .ok [[false]] ∧
    parserRun c3Leaf "a > 1 and b > 2" = .ok [[false]] :=
  ⟨by decide, by decide, by decide⟩

/-- C3 (amended): a `GROUP_CLOSE` token with no matching `GROUP_OPEN`
does not abort the evaluation: the token loop `break`s, the result
computed from the tokens before it is returned, and every following
token is ignored. -/
theorem unmatched_group_close_stops_evaluation
    (f : String → Except VError BoolMatrix) (e : String) (m : BoolMatrix)
    (rest : List Token) (h : f e = .ok m) :
    parserEvaluate f (⟨.expr, e⟩ :: ⟨.groupClose, ")"⟩ :: rest) = .ok m := by
  simp [parserEvaluate, evalAux, h, bind, Except.bind, finish]

/-- C3 (witness): the amended statement applied to the token stream of
`"a > 1 ) and b > 2"`. -/
theorem unmatched_group_close_stops_evaluation_witness :
    c3Leaf "a > 1" = .ok [[true]] ∧
    parserEvaluate c3Leaf
      [⟨.expr, "a > 1"⟩, ⟨.groupClose, ")"⟩, ⟨.and_tok, "and"⟩, ⟨.expr, "b > 2"⟩] =
      .ok [[true]] :=
  ⟨rfl, unmatched_group_close_stops_evaluation c3Leaf "a > 1" [[true]]
    [⟨.and_tok, "and"⟩, ⟨.expr, "b > 2"⟩] rfl⟩

/-- Concrete leaf evaluator with X = false, Y = true, Z = false (one
row). -/
def c1LeafFTF : String → Except VError BoolMatrix := fun s =>
  if s = "x" then .ok [[false]]
  else if s = "y" then .ok [[true]]
  else if s = "z" then .ok [[false]]
  else .error (.runtimeError ("no such clause: " ++ s))

/-- Concrete leaf evaluator with X = true, Y = true, Z = false (one
row). -/
def c1LeafTTF : String → Except VError BoolMatrix := fun s =>
  if s = "x" then .ok [[true]]
  else if s = "y" then .ok [[true]]
  else if s = "z" then .ok [[false]]
  else .error (.runtimeError ("no such clause: " ++ s))

/-- C1 (counterexample): on the row X = false, Y = true, Z = false the
rule `"x or y and z"` does evaluate to false, but `X OR (Y AND Z)` is
`false ∨ (true ∧ false) = false` as well — so the claim's assertion that
the result differs from `X OR (Y AND Z)` (said to be true) fails at its
own example row: that row does not separate the two bracketings. -/
theorem fold_example_row_does_not_separate :
    parserRun c1LeafFTF "x or y and z" = .ok [[false]] ∧
    (false || (true && false)) = false :=
  ⟨by decide, rfl⟩

/-- C1 (amended): `Parser.evaluate` folds connectives strictly left to
right with no AND-over-OR precedence: for any leaf evaluator returning
single-column boolean matrices X, Y, Z for the clauses `"x"`, `"y"`,
`"z"`, the rule `"x or y and z"` evaluates row-wise to
`(X OR Y) AND Z`.  A separating row is X = true, Y = true, Z = false: the
result is false while `X OR (Y AND Z)` would be true.  (On the original
claim's row X = false, Y = true, Z = false the result is false, but both
bracketings agree there.) -/
theorem parser_folds_left_to_right
    (f : String → Except VError BoolMatrix) (xs ys zs : List Bool)
    (hx : f "x" = .ok [xs]) (hy : f "y" = .ok [ys]) (hz : f "z" = .ok [zs]) :
    parserRun f "x or y and z" =
      .ok [List.zipWith (fun a b => a && b)
            (List.zipWith (fun a b => a || b) xs ys) zs] ∧
    parserRun c1LeafTTF "x or y and z" = .ok [[false]] ∧
    (true || (true && false)) = true := by
  refine ⟨?_, by decide, rfl⟩
  have ht : tokenize "x or y and z" =
      [⟨.expr, "x"⟩, ⟨.or_tok, "or"⟩, ⟨.expr, "y"⟩, ⟨.and_tok, "and"⟩, ⟨.expr, "z"⟩] := by decide
  rw [parserRun, ht]
  simp [parserEvaluate, evalAux, hx, hy, hz, bind, Except.bind, finish, rowAny, rowAll]

/-- C6: on an all-numeric selection, the RanksIn comparator with a
percentile target (one matching `"(top|bottom) N%"`) raises the
percentile validation error exactly when `N` is not strictly between 0
and 100; for valid `N` it returns true exactly for the cells whose
fractional rank — descending for `"top"`, ascending for `"bottom"`,
ties averaged, divided by the non-missing count — is `≤ N/100`
(missing cells are false). -/
theorem rank_percentile_threshold (df : DataFrame) (target : String)
    (ascending : Bool) (n : ℕ)
    (hdt : invalidColumns df .number = [])
    (hp : rankParseTarget target = some (ascending, n, true)) :
    (RowWise.rankComparator df target =
        .error (.valueError ("RankComparator: Percentile rank must be between 0 - 100, got " ++
          toString n ++ " instead.")) ↔ ¬(0 < n ∧ n < 100)) ∧
    (0 < n → n < 100 →
      RowWise.rankComparator df target =
        .ok (df.map (fun c => c.values.map (fun v =>
          match v with
          | .num x =>
              ((avgRank ascending (presentRats c.values) x).div
                (Q.ofNat (presentRats c.values).length)).le ((Q.ofNat n).div 100)
          | _ => false)))) := by
  have hck : checkDtypes df .number = .ok () := checkDtypes_ok df .number hdt
  by_cases hn : 0 < n ∧ n < 100
  · have hcond : (true && !(decide (0 < n) && decide (n < 100))) = false := by
      simp [hn.1, hn.2]
    have hok : RowWise.rankComparator df target =
        .ok (df.map (fun c => (rankColumn ascending true c.values).map (fun r? =>
          match r? with
          | some r => r.le (if true then (Q.ofNat n).div 100 else Q.ofNat n)
          | none => false))) := by
      simp only [RowWise.rankComparator, hck, hp, bind, Except.bind, hcond,
        Bool.false_eq_true, if_false, pure, Except.pure]
    constructor
    · rw [hok]
      constructor
      · intro he; cases he
      · intro hc; exact absurd hn hc
    · intro _ _
      rw [hok]
      refine congrArg Except.ok ?_
      refine map_ext df _ _ (fun c => ?_)
      simp only [rankColumn, List.map_map]
      refine map_ext _ _ _ (fun v => ?_)
      cases v <;> simp
  · have hcond : (true && !(decide (0 < n) && decide (n < 100))) = true := by
      rcases Decidable.not_and_iff_or_not.mp hn with h | h <;> simp [h]
    have herr : RowWise.rankComparator df target =
        .error (.valueError ("RankComparator: Percentile rank must be between 0 - 100, got " ++
          toString n ++ " instead.")) := by
      simp only [RowWise.rankComparator, hck, hp, bind, Except.bind, hcond, if_true]
    refine ⟨⟨fun _ => hn, fun _ => herr⟩, fun h1 h2 => absurd ⟨h1, h2⟩ hn⟩

/-- C6 (witness): `"top 10%"` on the column `[1 … 10]` flags exactly the
value `10` (the unique value of fractional descending rank `≤ 0.10`),
and `"top 150%"` raises the percentile validation error. -/
theorem rank_percentile_threshold_witness :
    RowWise.rankComparator
        [⟨"x", Dtype.number, [Val.num 1, Val.num 2, Val.num 3, Val.num 4, Val.num 5,
          Val.num 6, Val.num 7, Val.num 8, Val.num 9, Val.num 10]⟩] "top 10%" =
      .ok [[false, false, false, false, false, false, false, false, false, true]] ∧
    RowWise.rankComparator [⟨"x", Dtype.number, [Val.num 1, Val.num 2, Val.num 3]⟩]
        "top 150%" =
      .error (.valueError "RankComparator: Percentile rank must be between 0 - 100, got 150 instead.") := by
  constructor
  · have h := (rank_percentile_threshold
      [⟨"x", Dtype.number, [Val.num 1, Val.num 2, Val.num 3, Val.num 4, Val.num 5,
        Val.num 6, Val.num 7, Val.num 8, Val.num 9, Val.num 10]⟩] "top 10%" false 10
      (by decide) (by decide)).2 (by decide) (by decide)
    rw [h]
    decide
  · exact ((rank_percentile_threshold [⟨"x", Dtype.number, [Val.num 1, Val.num 2, Val.num 3]⟩]
      "top 150%" false 150 (by decide) (by decide)).1).mpr (by decide)

/-- C7: the IsOutlierBy comparator with target `"1.5 IQR"` on a numeric
column flags a value exactly when it is `≤ q1 − 1.5·(q3−q1)` or
`≥ q3 + 1.5·(q3−q1)` with `q1`, `q3` the first and third quartiles of
the column's non-missing values; on the column `[1,2,3,4,5,100]` it
flags exactly the value `100`. -/
theorem outlier_iqr_bounds (c : Column) (hc : c.dtype = .number) :
    Comparators.outlierComparator [c] "1.5 IQR" =
      .ok [c.values.map (fun v =>
        match v with
        | .num x =>
            x.le ((quantile (presentRats c.values) ((1 : Q).div 4)).sub
              (((3 : Q).div 2).mul ((quantile (presentRats c.values) ((3 : Q).div 4)).sub
                (quantile (presentRats c.values) ((1 : Q).div 4))))) ||
            ((quantile (presentRats c.values) ((3 : Q).div 4)).add
              (((3 : Q).div 2).mul ((quantile (presentRats c.values) ((3 : Q).div 4)).sub
                (quantile (presentRats c.values) ((1 : Q).div 4))))).le x
        | _ => false)] ∧
    Comparators.outlierComparator
        [⟨"x", Dtype.number, [Val.num 1, Val.num 2, Val.num 3, Val.num 4, Val.num 5,
          Val.num 100]⟩] "1.5 IQR" =
      .ok [[false, false, false, false, false, true]] := by
  constructor
  · have hp : outlierParseTarget "1.5 IQR" =
        .ok (some ((3 : Q).div 2), some ((3 : Q).div 2), OMethod.iqr) := by decide
    have hguard : (c.dtype ≠ Dtype.number) = False := by simp [hc]
    simp only [Comparators.outlierComparator, hp, bind, Except.bind, mapE,
      outlierColumn, hguard, if_false, outlierIqrFlags, pure, Except.pure]
  · decide

/-- C7 (witness): the general bound characterization applied to the
column `[1,2,3,4,5,100]` (where `q1 = 9/4`, `q3 = 19/4`, so the bounds
are `-3/2` and `17/2`). -/
theorem outlier_iqr_bounds_witness :
    Comparators.outlierComparator
        [⟨"x", Dtype.number, [Val.num 1, Val.num 2, Val.num 3, Val.num 4, Val.num 5,
          Val.num 100]⟩] "1.5 IQR" =
      .ok [[false, false, false, false, false, true]] :=
  (outlier_iqr_bounds ⟨"x", Dtype.number, [Val.num 1, Val.num 2, Val.num 3, Val.num 4,
    Val.num 5, Val.num 100]⟩ rfl).2

/-- C9: every comparator of both families, on every input (dataframe
column subset and target) that it accepts without raising an error,
returns a boolean matrix whose shape — column count and per-column row
count — equals the shape of the input column subset. -/
theorem comparator_output_shape (matcher : String → String → Bool)
    (df : DataFrame) (t : Target) (ot : Option Target) (s : String) (v : Val) :
    (∀ m, Comparators.eqComparator df t = .ok m → shapeMatches df m) ∧
    (∀ m, Comparators.uneqComparator df t = .ok m → shapeMatches df m) ∧
    (∀ m, Comparators.gtComparator df t = .ok m → shapeMatches df m) ∧
    (∀ m, Comparators.gteComparator df t = .ok m → shapeMatches df m) ∧
    (∀ m, Comparators.ltComparator df t = .ok m → shapeMatches df m) ∧
    (∀ m, Comparators.lteComparator df t = .ok m → shapeMatches df m) ∧
    (∀ m, Comparators.inComparator df s = .ok m → shapeMatches df m) ∧
    (∀ m, Comparators.betweenComparator df s = .ok m → shapeMatches df m) ∧
    shapeMatches df (Comparators.nullComparator df ot) ∧
    shapeMatches df (Comparators.notNullComparator df ot) ∧
    (∀ m, Comparators.rankComparator df s = .ok m → shapeMatches df m) ∧
    (∀ m, Comparators.containsComparator matcher df s = .ok m → shapeMatches df m) ∧
    (∀ m, Comparators.outlierComparator df s = .ok m → shapeMatches df m) ∧
    (∀ m, RowWise.eqComparator df v = .ok m → shapeMatches df m) ∧
    (∀ m, RowWise.uneqComparator df v = .ok m → shapeMatches df m) ∧
    (∀ m, RowWise.gtComparator df v = .ok m → shapeMatches df m) ∧
    (∀ m, RowWise.gteComparator df v = .ok m → shapeMatches df m) ∧
    (∀ m, RowWise.ltComparator df v = .ok m → shapeMatches df m) ∧
    (∀ m, RowWise.lteComparator df v = .ok m → shapeMatches df m) ∧
    shapeMatches df (RowWise.nullComparator df ot) ∧
    shapeMatches df (RowWise.notNullComparator df ot) ∧
    (∀ m, RowWise.inComparator df s = .ok m → shapeMatches df m) ∧
    (∀ m, RowWise.betweenComparator df s = .ok m → shapeMatches df m) ∧
    (∀ m, RowWise.rankComparator df s = .ok m → shapeMatches df m) ∧
    (∀ m, RowWise.containsComparator matcher df s = .ok m → shapeMatches df m) ∧
    (∀ m, RowWise.outlierComparator df s = .ok m → shapeMatches df m) := by
  refine ⟨eq_shape df t, uneq_shape df t,
    fun m h => numCompare_shape .gt df t m h,
    fun m h => numCompare_shape .gte df t m h,
    fun m h => numCompare_shape .lt df t m h,
    fun m h => numCompare_shape .lte df t m h,
    in_shape df s, between_shape df s,
    null_shape df ot, notNull_shape df ot,
    rank_shape df s, contains_shape matcher df s, outlier_shape df s,
    fun m h => rowCompare_shape .eq df v m h,
    fun m h => rowCompare_shape .ne df v m h,
    fun m h => rowCompare_shape .gt df v m h,
    fun m h => rowCompare_shape .gte df v m h,
    fun m h => rowCompare_shape .lt df v m h,
    fun m h => rowCompare_shape .lte df v m h,
    null_shape df ot, notNull_shape df ot,
    in_shape df s, between_shape df s,
    rank_shape df s, contains_shape matcher df s, outlier_shape df s⟩

/-- C9 (witness): the Eq comparator on the two-row column `{a: [1, 2]}`
with scalar target `1` returns `[[true, false]]`, whose shape (1 column
× 2 rows) matches the input's. -/
theorem comparator_output_shape_witness :
    Comparators.eqComparator [⟨"a", Dtype.number, [Val.num 1, Val.num 2]⟩]
        (.scalar (.num 1)) = .ok [[true, false]] ∧
    shapeMatches [⟨"a", Dtype.number, [Val.num 1, Val.num 2]⟩] [[true, false]] :=
  ⟨by decide,
    (comparator_output_shape (fun _ _ => false)
      [⟨"a", Dtype.number, [Val.num 1, Val.num 2]⟩] (.scalar (.num 1)) none ""
      (.num 1)).1 [[true, false]] (by decide)⟩

/-- C1 (witness): the amended statement applied to the leaf evaluator
with X = true, Y = true, Z = false. -/
theorem parser_folds_left_to_right_witness :
    c1LeafTTF "x" = .ok [[true]] ∧
    parserRun c1LeafTTF "x or y and z" =
      .ok [List.zipWith (fun a b => a && b)
            (List.zipWith (fun a b => a || b) [true] [true]) [false]] :=
  ⟨rfl, (parser_folds_left_to_right c1LeafTTF [true] [true] [false] rfl rfl rfl).1⟩

end Validata
